import Mathlib

/-!
# GoThink session/storage core — shallow embedding

This file embeds the session-scoped bookkeeping core of the gothink-web
repository (package `internal/storage`, the catalog in `internal/types`,
and the tool handlers of `cmd/gothink-http/main.go`) and proves the
stated properties about it.

Modelling conventions:
* Go maps (`map[string]*T`) are modelled as insertion-ordered association
  lists `List (String × T)`; `map[k] = v` is `mapUpdate`, reads are
  `mapLookup`.  Go's map iteration order is unspecified; the model fixes
  insertion order, and no theorem below depends on a particular order
  beyond what the claims themselves assert.
* `time.Now()` is modelled by a `Nat` clock field `now` carried in the
  storage state; every mutating operation stamps the current clock value
  and advances the clock by one, which soundly models real time being
  non-decreasing across calls.
* Go `int` configuration values are `Int`; counters that only ever start
  at zero and increment are `Nat` (exact for Go ints in this range), and
  all comparisons against the configured cap are performed in `Int`,
  mirroring the Go comparisons.
* `float64 Confidence` is never computed with — only stored and copied —
  so it is carried as an uninterpreted `Int` payload.
* Go functions that always return a `nil` error (`GetThoughts`,
  `GetMentalModels`, `GetSessionStats`, `ExportSession`) are total
  functions; fallible ones return their state paired with an
  `Option String` error, because Go's failure paths can still have
  already mutated the receiver (session auto-creation).
-/

namespace GoThink

/-- Association-list read, modelling a Go map read (`v, ok := m[k]`). -/
def mapLookup {α : Type} (k : String) : List (String × α) → Option α
  | [] => none
  | (k', v) :: rest => if k' = k then some v else mapLookup k rest

/-- Association-list write, modelling a Go map write (`m[k] = v`):
replace the binding if the key is present, else append. -/
def mapUpdate {α : Type} (k : String) (v : α) : List (String × α) → List (String × α)
  | [] => [(k, v)]
  | (k', v') :: rest => if k' = k then (k, v) :: rest else (k', v') :: mapUpdate k v rest

/-- The slice of `config.Config` the storage core reads
(`MaxThoughtsPerSession`); the other configuration fields (port, host,
timeouts, paths, flags) never reach the core. -/
structure Config where
  maxThoughtsPerSession : Int
  deriving DecidableEq

/-- `types.ThoughtData`. -/
structure ThoughtData where
  id : String
  thought : String
  thoughtNumber : Int
  totalThoughts : Int
  isRevision : Bool
  revisesThought : Option Int
  branchFromThought : Option Int
  branchID : String
  needsMoreThoughts : Bool
  nextThoughtNeeded : Bool
  createdAt : Nat
  deriving DecidableEq

/-- `types.MentalModelData`; `Confidence float64` is only ever stored and
copied, never computed with, so it is carried as an uninterpreted `Int`. -/
structure MentalModelData where
  id : String
  modelName : String
  problem : String
  steps : List String
  reasoning : String
  conclusion : String
  confidence : Int
  createdAt : Nat
  deriving DecidableEq

/-- `storage.SessionData`. -/
structure SessionData where
  id : String
  createdAt : Nat
  lastAccessedAt : Nat
  thoughtCount : Nat
  toolsUsed : List String
  totalOperations : Nat
  isActive : Bool
  remainingThoughts : Int
  deriving DecidableEq

/-- `storage.Storage`: the three entity maps plus the config and the
time model.  The mutexes of the Go code serialize operations; the model
is that serialized sequence of operations. -/
structure Storage where
  config : Config
  thoughts : List (String × ThoughtData)
  mentalModels : List (String × MentalModelData)
  sessions : List (String × SessionData)
  now : Nat
  deriving DecidableEq

deriving instance DecidableEq for Except

/-- `storage.New`. -/
def Storage.new (cfg : Config) : Storage :=
  { config := cfg, thoughts := [], mentalModels := [], sessions := [], now := 0 }

/-- `storage.generateID`: `fmt.Sprintf("%d-%d", UnixNano, Nanosecond)`,
a pure function of the current clock. -/
def generateID (now : Nat) : String :=
  toString now ++ "-" ++ toString (now % 1000000000)

/-- The zero-counter session record `getSession` creates for an unseen
identifier: `active = true`, `RemainingThoughts` copied from the cap. -/
def freshSession (s : Storage) (sessionID : String) : SessionData :=
  { id := sessionID
    createdAt := s.now
    lastAccessedAt := s.now
    thoughtCount := 0
    toolsUsed := []
    totalOperations := 0
    isActive := true
    remainingThoughts := s.config.maxThoughtsPerSession }

/-- `(*Storage).getSession` (lower case): get-or-create.  Returns the
session together with the possibly extended state — in Go the creation
is a mutation of `s.sessions` that persists even if the caller then
fails. -/
def getSession (s : Storage) (sessionID : String) : SessionData × Storage :=
  match mapLookup sessionID s.sessions with
  | some session => (session, s)
  | none =>
      (freshSession s sessionID,
        { s with sessions := mapUpdate sessionID (freshSession s sessionID) s.sessions })

/-- `(*Storage).AddThought`.  Returns the new state and `some errMsg` on
failure; on the failure path the session auto-created by `getSession`
persists but nothing else changes. -/
def AddThought (s : Storage) (sessionID : String) (thought : ThoughtData) :
    Storage × Option String :=
  let session := (getSession s sessionID).1
  let s1 := (getSession s sessionID).2
  if (session.thoughtCount : Int) ≥ s1.config.maxThoughtsPerSession then
    (s1, some ("thought limit reached for session " ++ sessionID))
  else
    let tid := if thought.id = "" then generateID s1.now else thought.id
    let stored := { thought with id := tid, createdAt := s1.now }
    let session' := { session with
      thoughtCount := session.thoughtCount + 1
      lastAccessedAt := s1.now }
    ({ s1 with
        thoughts := mapUpdate tid stored s1.thoughts
        sessions := mapUpdate sessionID session' s1.sessions
        now := s1.now + 1 }, none)

/-- `(*Storage).GetThoughts`.  The Go body iterates over the whole
`s.thoughts` map and never consults `sessionID` (its own comment reads
"In a real implementation, you'd filter by session ID"); the parameter
is kept to mirror the signature.  The always-`nil` error is dropped. -/
def GetThoughts (s : Storage) (_sessionID : String) : List ThoughtData :=
  s.thoughts.map Prod.snd

/-- `(*Storage).AddMentalModel`: assigns id/timestamp, inserts, touches
the session's last-access.  Never fails; no counter is incremented. -/
def AddMentalModel (s : Storage) (sessionID : String) (model : MentalModelData) : Storage :=
  let mid := if model.id = "" then generateID s.now else model.id
  let stored := { model with id := mid, createdAt := s.now }
  let s1 := { s with mentalModels := mapUpdate mid stored s.mentalModels }
  let session := (getSession s1 sessionID).1
  let s2 := (getSession s1 sessionID).2
  let session' := { session with lastAccessedAt := s2.now }
  { s2 with sessions := mapUpdate sessionID session' s2.sessions, now := s2.now + 1 }

/-- `(*Storage).GetMentalModels`: same unfiltered iteration as
`GetThoughts`. -/
def GetMentalModels (s : Storage) (_sessionID : String) : List MentalModelData :=
  s.mentalModels.map Prod.snd

/-- `(*Storage).GetSession` (exported, strict): fails with
"session ... not found" when absent; never creates. -/
def GetSession (s : Storage) (sessionID : String) : Except String SessionData :=
  match mapLookup sessionID s.sessions with
  | some session => Except.ok session
  | none => Except.error ("session " ++ sessionID ++ " not found")

/-- `types.SessionStatistics`; the `Stores` map is flattened into its
two counts. -/
structure SessionStatistics where
  sessionID : String
  createdAt : Nat
  lastAccessedAt : Nat
  thoughtCount : Nat
  toolsUsed : List String
  totalOperations : Nat
  isActive : Bool
  remainingThoughts : Int
  storesThoughtsCount : Nat
  storesMentalModelsCount : Nat
  deriving DecidableEq

/-- `(*Storage).GetSessionStats`.  Calls `getSession` (auto-creating),
then derives every count from the *unfiltered* `GetThoughts` /
`GetMentalModels` results.  The Go `toolsUsed` set is iterated from a
map; the model lists its members in a fixed order.  The always-`nil`
error is dropped; the possibly extended state is returned. -/
def GetSessionStats (s : Storage) (sessionID : String) : SessionStatistics × Storage :=
  let session := (getSession s sessionID).1
  let s1 := (getSession s sessionID).2
  let thoughts := GetThoughts s1 sessionID
  let mentalModels := GetMentalModels s1 sessionID
  let toolsList :=
    (if thoughts.length > 0 then ["sequential-thinking"] else []) ++
    (if mentalModels.length > 0 then ["mental-model"] else [])
  ({ sessionID := sessionID
     createdAt := session.createdAt
     lastAccessedAt := session.lastAccessedAt
     thoughtCount := thoughts.length
     toolsUsed := toolsList
     totalOperations := thoughts.length + mentalModels.length
     isActive := session.isActive
     remainingThoughts := s1.config.maxThoughtsPerSession - (thoughts.length : Int)
     storesThoughtsCount := thoughts.length
     storesMentalModelsCount := mentalModels.length }, s1)

/-- `types.SessionExport`; the `Data` map is flattened into its two
lists and the metadata into its fields. -/
structure SessionExport where
  version : String
  timestamp : Nat
  sessionID : String
  sessionType : String
  dataThoughts : List ThoughtData
  dataMentalModels : List MentalModelData
  metadataExportedAt : Nat
  metadataVersion : String
  deriving DecidableEq

/-- `(*Storage).ExportSession`: a pure read — it calls only
`GetThoughts` / `GetMentalModels` (unfiltered) and, unlike
`GetSessionStats`, never calls `getSession`, so it touches no session
state.  The always-`nil` error is dropped. -/
def ExportSession (s : Storage) (sessionID : String) : SessionExport :=
  { version := "1.0.0"
    timestamp := s.now
    sessionID := sessionID
    sessionType := "hybrid"
    dataThoughts := GetThoughts s sessionID
    dataMentalModels := GetMentalModels s sessionID
    metadataExportedAt := s.now
    metadataVersion := "0.1.0" }

/-- The mental-model catalog entry shape used by the HTTP server:
`models.MentalModel` (name, description, steps, category, priority). -/
structure MentalModel where
  name : String
  description : String
  steps : List String
  category : String
  priority : Int
  deriving DecidableEq

/-- `models.Loader.LoadMentalModels` with no custom path (the default
configuration leaves `MentalModelsPath` empty): the four core models of
`types.MentalModels`, converted with priority 0. -/
def loadMentalModels : List (String × MentalModel) :=
  [ ("first_principles",
     { name := "First Principles Thinking"
       description := "Break down complex problems into fundamental components"
       steps := ["Identify the problem clearly",
                 "Break it down into basic components",
                 "Question assumptions",
                 "Build up from the basics"]
       category := "analytical"
       priority := 0 }),
    ("opportunity_cost",
     { name := "Opportunity Cost Analysis"
       description := "Consider what you give up when making a choice"
       steps := ["Identify all available options",
                 "List the benefits of each option",
                 "Identify what you give up with each choice",
                 "Compare opportunity costs"]
       category := "decision-making"
       priority := 0 }),
    ("bayesian_thinking",
     { name := "Bayesian Thinking"
       description := "Update beliefs based on new evidence"
       steps := ["Start with prior beliefs",
                 "Gather new evidence",
                 "Update beliefs using Bayes' theorem",
                 "Consider alternative explanations"]
       category := "probabilistic"
       priority := 0 }),
    ("systems_thinking",
     { name := "Systems Thinking"
       description := "Understand how parts of a system interact"
       steps := ["Identify system boundaries",
                 "Map system components",
                 "Identify relationships and feedback loops",
                 "Consider emergent properties"]
       category := "holistic"
       priority := 0 }) ]

/-- The `session_context` fields of the `sequential_thinking` tool
response built by `handleSequentialThinking` in
`cmd/gothink-http/main.go` (`total_thoughts` and `remaining_thoughts`). -/
structure SeqThinkingResponse where
  thoughtID : String
  totalThoughts : Nat
  remainingThoughts : Int
  deriving DecidableEq

/-- The `ThoughtData` value `handleSequentialThinking` builds before
storing: caller-side generated id, no revision or branch markers. -/
def seqThoughtData (st : Storage) (thought : String)
    (thoughtNumber totalThoughts : Int) (nextThoughtNeeded : Bool) : ThoughtData :=
  { id := toString st.now ++ "-" ++ toString thoughtNumber
    thought := thought
    thoughtNumber := thoughtNumber
    totalThoughts := totalThoughts
    isRevision := false
    revisesThought := none
    branchFromThought := none
    branchID := ""
    needsMoreThoughts := false
    nextThoughtNeeded := nextThoughtNeeded
    createdAt := st.now }

/-- `handleSequentialThinking` (`cmd/gothink-http/main.go`): builds a
`ThoughtData` with a caller-side generated id, stores it via
`AddThought`, reads `GetSessionStats`, and answers with
`total_thoughts = stats.ThoughtCount` and
`remaining_thoughts = 100 - stats.ThoughtCount` (the literal constant
100 appears in the source). -/
def handleSequentialThinking (st : Storage) (sessionID thought : String)
    (thoughtNumber totalThoughts : Int) (nextThoughtNeeded : Bool) :
    Storage × Except String SeqThinkingResponse :=
  let thoughtData := seqThoughtData st thought thoughtNumber totalThoughts nextThoughtNeeded
  let st1 := (AddThought st sessionID thoughtData).1
  match (AddThought st sessionID thoughtData).2 with
  | some e => (st1, Except.error e)
  | none =>
      let stats := (GetSessionStats st1 sessionID).1
      let st2 := (GetSessionStats st1 sessionID).2
      (st2, Except.ok
        { thoughtID := thoughtData.id
          totalThoughts := stats.thoughtCount
          remainingThoughts := 100 - (stats.thoughtCount : Int) })

/-- The response fields of the `mental_model` tool built in
`cmd/gothink-http/main.go` (`model_info`, `steps_used`,
`total_mental_models`). -/
structure MentalModelToolResponse where
  modelID : String
  modelInfoName : String
  modelInfoDescription : String
  modelInfoCategory : String
  modelInfoPriority : Int
  stepsUsed : List String
  hasSteps : Bool
  totalMentalModels : Nat
  deriving DecidableEq

/-- The `mental_model` tool handler of `cmd/gothink-http/main.go`:
catalog lookup, fall back to the catalog's steps when the caller sends
none, store via `AddMentalModel`, then read stats for the session
context. -/
def handleMentalModel (st : Storage) (sessionID modelName problem : String)
    (steps : List String) : Storage × Except String MentalModelToolResponse :=
  match mapLookup modelName loadMentalModels with
  | none => (st, Except.error ("Mental model '" ++ modelName ++ "' not found."))
  | some model =>
      let stepsUsed := if steps.length = 0 then model.steps else steps
      let modelData : MentalModelData :=
        { id := toString st.now ++ "-" ++ toString stepsUsed.length
          modelName := modelName
          problem := problem
          steps := stepsUsed
          reasoning := ""
          conclusion := ""
          confidence := 0
          createdAt := st.now }
      let st1 := AddMentalModel st sessionID modelData
      let stats := (GetSessionStats st1 sessionID).1
      let st2 := (GetSessionStats st1 sessionID).2
      (st2, Except.ok
        { modelID := modelData.id
          modelInfoName := model.name
          modelInfoDescription := model.description
          modelInfoCategory := model.category
          modelInfoPriority := model.priority
          stepsUsed := stepsUsed
          hasSteps := decide (stepsUsed.length > 0)
          totalMentalModels := stats.storesMentalModelsCount })

/-- The thought count the session registry records for a session
(0 when the session does not exist yet). -/
def sessionThoughtCount (s : Storage) (sessionID : String) : Nat :=
  match mapLookup sessionID s.sessions with
  | some session => session.thoughtCount
  | none => 0

/-- The `TotalOperations` counter the session registry records
(0 when the session does not exist yet). -/
def sessionTotalOperations (s : Storage) (sessionID : String) : Nat :=
  match mapLookup sessionID s.sessions with
  | some session => session.totalOperations
  | none => 0

/-- The last-access timestamp recorded for a session, when present. -/
def sessionLastAccess (s : Storage) (sessionID : String) : Option Nat :=
  (mapLookup sessionID s.sessions).map SessionData.lastAccessedAt

/-- Iterated `AddThought`: stops at the first failure. -/
def addThoughts (s : Storage) (sessionID : String) : List ThoughtData → Storage × Option String
  | [] => (s, none)
  | t :: rest =>
      match AddThought s sessionID t with
      | (s1, none) => addThoughts s1 sessionID rest
      | (s1, some e) => (s1, some e)

/-- The operations of the storage core reachable from the outside. -/
inductive Op where
  | addThought (sessionID : String) (thought : ThoughtData)
  | addMentalModel (sessionID : String) (model : MentalModelData)
  | getOrCreate (sessionID : String)
  | stats (sessionID : String)
  | exportSession (sessionID : String)

/-- One step of the storage state machine.  `ExportSession` reads the
state and builds a value without writing any field, so its step is the
identity on the state. -/
def stepOp (s : Storage) : Op → Storage
  | Op.addThought sid t => (AddThought s sid t).1
  | Op.addMentalModel sid m => AddMentalModel s sid m
  | Op.getOrCreate sid => (getSession s sid).2
  | Op.stats sid => (GetSessionStats s sid).2
  | Op.exportSession _ => s

/-- Run a sequence of operations. -/
def runOps (s : Storage) : List Op → Storage
  | [] => s
  | op :: rest => runOps (stepOp s op) rest

/-! ## Association-list map lemmas -/

theorem mapLookup_update_self {α : Type} (k : String) (v : α) (l : List (String × α)) :
    mapLookup k (mapUpdate k v l) = some v := by
  induction l with
  | nil => simp [mapUpdate, mapLookup]
  | cons p rest ih =>
      obtain ⟨k', v'⟩ := p
      by_cases h : k' = k <;> simp [mapUpdate, mapLookup, h, ih]

theorem mapLookup_update_ne {α : Type} {k k' : String} (h : k' ≠ k) (v : α)
    (l : List (String × α)) : mapLookup k' (mapUpdate k v l) = mapLookup k' l := by
  have h' : k ≠ k' := Ne.symm h
  induction l with
  | nil => simp [mapUpdate, mapLookup, h']
  | cons p rest ih =>
      obtain ⟨k'', v''⟩ := p
      by_cases h2 : k'' = k
      · subst h2
        simp [mapUpdate, mapLookup, h']
      · simp [mapUpdate, mapLookup, h2, ih]

/-! ## `getSession` lemmas -/

theorem getSession_thoughts (s : Storage) (sid : String) :
    ((getSession s sid).2).thoughts = s.thoughts := by
  unfold getSession
  cases mapLookup sid s.sessions <;> rfl

theorem getSession_mentalModels (s : Storage) (sid : String) :
    ((getSession s sid).2).mentalModels = s.mentalModels := by
  unfold getSession
  cases mapLookup sid s.sessions <;> rfl

theorem getSession_config (s : Storage) (sid : String) :
    ((getSession s sid).2).config = s.config := by
  unfold getSession
  cases mapLookup sid s.sessions <;> rfl

theorem getSession_now (s : Storage) (sid : String) :
    ((getSession s sid).2).now = s.now := by
  unfold getSession
  cases mapLookup sid s.sessions <;> rfl

theorem getSession_fst_thoughtCount (s : Storage) (sid : String) :
    ((getSession s sid).1).thoughtCount = sessionThoughtCount s sid := by
  unfold getSession sessionThoughtCount
  cases mapLookup sid s.sessions <;> rfl

theorem getSession_fst_totalOperations (s : Storage) (sid : String) :
    ((getSession s sid).1).totalOperations = sessionTotalOperations s sid := by
  unfold getSession sessionTotalOperations
  cases mapLookup sid s.sessions <;> rfl

theorem getSession_lookup_self (s : Storage) (sid : String) :
    mapLookup sid ((getSession s sid).2).sessions = some ((getSession s sid).1) := by
  unfold getSession
  cases h : mapLookup sid s.sessions with
  | none => simpa using mapLookup_update_self sid _ s.sessions
  | some session => simpa using h

theorem getSession_count (s : Storage) (sid sid' : String) :
    sessionThoughtCount ((getSession s sid).2) sid' = sessionThoughtCount s sid' := by
  unfold getSession
  cases h : mapLookup sid s.sessions with
  | some session => rfl
  | none =>
      by_cases h2 : sid' = sid
      · subst h2
        simp [sessionThoughtCount, mapLookup_update_self, freshSession, h]
      · simp [sessionThoughtCount, mapLookup_update_ne h2]

theorem getSession_totalOperations (s : Storage) (sid sid' : String) :
    sessionTotalOperations ((getSession s sid).2) sid' = sessionTotalOperations s sid' := by
  unfold getSession
  cases h : mapLookup sid s.sessions with
  | some session => rfl
  | none =>
      by_cases h2 : sid' = sid
      · subst h2
        simp [sessionTotalOperations, mapLookup_update_self, freshSession, h]
      · simp [sessionTotalOperations, mapLookup_update_ne h2]

theorem getSession_lastAccess_pres (s : Storage) (sid sid' : String) (la : Nat)
    (h : sessionLastAccess s sid' = some la) :
    sessionLastAccess ((getSession s sid).2) sid' = some la := by
  unfold getSession
  cases hl : mapLookup sid s.sessions with
  | some session => simpa [hl] using h
  | none =>
      by_cases h2 : sid' = sid
      · subst h2
        simp [sessionLastAccess, hl] at h
      · simpa [sessionLastAccess, mapLookup_update_ne h2] using h

/-! ## `AddThought` lemmas -/

/-- The stored id `AddThought` uses: generated when the caller supplied none. -/
def storedThoughtID (s : Storage) (t : ThoughtData) : String :=
  if t.id = "" then generateID s.now else t.id

theorem AddThought_snd_none_iff (s : Storage) (sid : String) (t : ThoughtData) :
    (AddThought s sid t).2 = none ↔
      (sessionThoughtCount s sid : Int) < s.config.maxThoughtsPerSession := by
  simp only [AddThought, getSession_fst_thoughtCount, getSession_config]
  split
  · next h => simp only [reduceCtorEq, false_iff]; omega
  · next h => simp only [true_iff]; omega

theorem AddThought_of_ge (s : Storage) (sid : String) (t : ThoughtData)
    (h : (sessionThoughtCount s sid : Int) ≥ s.config.maxThoughtsPerSession) :
    AddThought s sid t =
      ((getSession s sid).2, some ("thought limit reached for session " ++ sid)) := by
  simp only [AddThought, getSession_fst_thoughtCount, getSession_config]
  split
  · rfl
  · next h2 => omega

theorem AddThought_of_lt (s : Storage) (sid : String) (t : ThoughtData)
    (h : (sessionThoughtCount s sid : Int) < s.config.maxThoughtsPerSession) :
    AddThought s sid t =
      ({ (getSession s sid).2 with
          thoughts := mapUpdate (storedThoughtID s t)
            { t with id := storedThoughtID s t, createdAt := s.now }
            s.thoughts
          sessions := mapUpdate sid
            { (getSession s sid).1 with
                thoughtCount := (getSession s sid).1.thoughtCount + 1
                lastAccessedAt := s.now }
            ((getSession s sid).2).sessions
          now := s.now + 1 }, none) := by
  simp only [AddThought, getSession_fst_thoughtCount, getSession_config, storedThoughtID,
    getSession_thoughts, getSession_now]
  split
  · next h2 => omega
  · rfl

theorem AddThought_config (s : Storage) (sid : String) (t : ThoughtData) :
    ((AddThought s sid t).1).config = s.config := by
  rcases lt_or_ge ((sessionThoughtCount s sid : Int)) s.config.maxThoughtsPerSession with h | h
  · rw [AddThought_of_lt s sid t h]
    simpa using getSession_config s sid
  · rw [AddThought_of_ge s sid t h]
    simpa using getSession_config s sid

theorem AddThought_mentalModels (s : Storage) (sid : String) (t : ThoughtData) :
    ((AddThought s sid t).1).mentalModels = s.mentalModels := by
  rcases lt_or_ge ((sessionThoughtCount s sid : Int)) s.config.maxThoughtsPerSession with h | h
  · rw [AddThought_of_lt s sid t h]
    simpa using getSession_mentalModels s sid
  · rw [AddThought_of_ge s sid t h]
    simpa using getSession_mentalModels s sid

theorem AddThought_now_ge (s : Storage) (sid : String) (t : ThoughtData) :
    s.now ≤ ((AddThought s sid t).1).now := by
  rcases lt_or_ge ((sessionThoughtCount s sid : Int)) s.config.maxThoughtsPerSession with h | h
  · rw [AddThought_of_lt s sid t h]
    simp
  · rw [AddThought_of_ge s sid t h]
    simp [getSession_now]

theorem AddThought_thoughts_of_ge (s : Storage) (sid : String) (t : ThoughtData)
    (h : (sessionThoughtCount s sid : Int) ≥ s.config.maxThoughtsPerSession) :
    ((AddThought s sid t).1).thoughts = s.thoughts := by
  rw [AddThought_of_ge s sid t h]
  simpa using getSession_thoughts s sid

theorem AddThought_thoughts_of_lt (s : Storage) (sid : String) (t : ThoughtData)
    (h : (sessionThoughtCount s sid : Int) < s.config.maxThoughtsPerSession) :
    ((AddThought s sid t).1).thoughts =
      mapUpdate (storedThoughtID s t)
        { t with id := storedThoughtID s t, createdAt := s.now } s.thoughts := by
  rw [AddThought_of_lt s sid t h]

theorem AddThought_stored_of_lt (s : Storage) (sid : String) (t : ThoughtData)
    (h : (sessionThoughtCount s sid : Int) < s.config.maxThoughtsPerSession) :
    mapLookup (storedThoughtID s t) ((AddThought s sid t).1).thoughts =
      some { t with id := storedThoughtID s t, createdAt := s.now } := by
  rw [AddThought_thoughts_of_lt s sid t h, mapLookup_update_self]

theorem AddThought_count_self_of_lt (s : Storage) (sid : String) (t : ThoughtData)
    (h : (sessionThoughtCount s sid : Int) < s.config.maxThoughtsPerSession) :
    sessionThoughtCount ((AddThought s sid t).1) sid = sessionThoughtCount s sid + 1 := by
  rw [AddThought_of_lt s sid t h]
  simp [sessionThoughtCount, mapLookup_update_self, getSession_fst_thoughtCount s sid]

theorem AddThought_count_of_ge (s : Storage) (sid : String) (t : ThoughtData)
    (h : (sessionThoughtCount s sid : Int) ≥ s.config.maxThoughtsPerSession) (sid2 : String) :
    sessionThoughtCount ((AddThought s sid t).1) sid2 = sessionThoughtCount s sid2 := by
  rw [AddThought_of_ge s sid t h]
  simpa using getSession_count s sid sid2

theorem AddThought_count_other (s : Storage) (sid : String) (t : ThoughtData)
    (sid2 : String) (hne : sid2 ≠ sid) :
    sessionThoughtCount ((AddThought s sid t).1) sid2 = sessionThoughtCount s sid2 := by
  rcases lt_or_ge ((sessionThoughtCount s sid : Int)) s.config.maxThoughtsPerSession with h | h
  · rw [AddThought_of_lt s sid t h]
    simp only [sessionThoughtCount]
    rw [mapLookup_update_ne hne]
    have := getSession_count s sid sid2
    simpa [sessionThoughtCount] using this
  · exact AddThought_count_of_ge s sid t h sid2

theorem AddThought_totalOperations (s : Storage) (sid : String) (t : ThoughtData)
    (sid2 : String) :
    sessionTotalOperations ((AddThought s sid t).1) sid2 = sessionTotalOperations s sid2 := by
  rcases lt_or_ge ((sessionThoughtCount s sid : Int)) s.config.maxThoughtsPerSession with h | h
  · rw [AddThought_of_lt s sid t h]
    by_cases hne : sid2 = sid
    · subst hne
      simp [sessionTotalOperations, mapLookup_update_self,
        getSession_fst_totalOperations s sid2]
    · simp only [sessionTotalOperations]
      rw [mapLookup_update_ne hne]
      have := getSession_totalOperations s sid sid2
      simpa [sessionTotalOperations] using this
  · rw [AddThought_of_ge s sid t h]
    simpa using getSession_totalOperations s sid sid2

theorem AddThought_lastAccess_self_of_lt (s : Storage) (sid : String) (t : ThoughtData)
    (h : (sessionThoughtCount s sid : Int) < s.config.maxThoughtsPerSession) :
    sessionLastAccess ((AddThought s sid t).1) sid = some s.now := by
  rw [AddThought_of_lt s sid t h]
  simp [sessionLastAccess, mapLookup_update_self]

/-! ## `AddMentalModel` lemmas -/

/-- The stored id `AddMentalModel` uses. -/
def storedModelID (s : Storage) (m : MentalModelData) : String :=
  if m.id = "" then generateID s.now else m.id

theorem AddMentalModel_of_found (s : Storage) (sid : String) (m : MentalModelData)
    (session : SessionData) (hs : mapLookup sid s.sessions = some session) :
    AddMentalModel s sid m =
      { s with
          mentalModels := mapUpdate (storedModelID s m)
            { m with id := storedModelID s m, createdAt := s.now } s.mentalModels
          sessions := mapUpdate sid { session with lastAccessedAt := s.now } s.sessions
          now := s.now + 1 } := by
  simp only [AddMentalModel, getSession, storedModelID, hs]

theorem AddMentalModel_of_absent (s : Storage) (sid : String) (m : MentalModelData)
    (hs : mapLookup sid s.sessions = none) :
    AddMentalModel s sid m =
      { s with
          mentalModels := mapUpdate (storedModelID s m)
            { m with id := storedModelID s m, createdAt := s.now } s.mentalModels
          sessions := mapUpdate sid
            { freshSession s sid with lastAccessedAt := s.now }
            (mapUpdate sid (freshSession s sid) s.sessions)
          now := s.now + 1 } := by
  simp only [AddMentalModel, getSession, storedModelID, freshSession, hs]

theorem AddMentalModel_config (s : Storage) (sid : String) (m : MentalModelData) :
    (AddMentalModel s sid m).config = s.config := by
  cases hs : mapLookup sid s.sessions with
  | some session => rw [AddMentalModel_of_found s sid m session hs]
  | none => rw [AddMentalModel_of_absent s sid m hs]

theorem AddMentalModel_thoughts (s : Storage) (sid : String) (m : MentalModelData) :
    (AddMentalModel s sid m).thoughts = s.thoughts := by
  cases hs : mapLookup sid s.sessions with
  | some session => rw [AddMentalModel_of_found s sid m session hs]
  | none => rw [AddMentalModel_of_absent s sid m hs]

theorem AddMentalModel_now (s : Storage) (sid : String) (m : MentalModelData) :
    (AddMentalModel s sid m).now = s.now + 1 := by
  cases hs : mapLookup sid s.sessions with
  | some session => rw [AddMentalModel_of_found s sid m session hs]
  | none => rw [AddMentalModel_of_absent s sid m hs]

theorem AddMentalModel_count (s : Storage) (sid : String) (m : MentalModelData)
    (sid2 : String) :
    sessionThoughtCount (AddMentalModel s sid m) sid2 = sessionThoughtCount s sid2 := by
  cases hs : mapLookup sid s.sessions with
  | some session =>
      rw [AddMentalModel_of_found s sid m session hs]
      by_cases hne : sid2 = sid
      · subst hne
        simp [sessionThoughtCount, mapLookup_update_self, hs]
      · simp [sessionThoughtCount, mapLookup_update_ne hne]
  | none =>
      rw [AddMentalModel_of_absent s sid m hs]
      by_cases hne : sid2 = sid
      · subst hne
        simp [sessionThoughtCount, mapLookup_update_self, freshSession, hs]
      · simp [sessionThoughtCount, mapLookup_update_ne hne]

theorem AddMentalModel_totalOperations (s : Storage) (sid : String) (m : MentalModelData)
    (sid2 : String) :
    sessionTotalOperations (AddMentalModel s sid m) sid2 = sessionTotalOperations s sid2 := by
  cases hs : mapLookup sid s.sessions with
  | some session =>
      rw [AddMentalModel_of_found s sid m session hs]
      by_cases hne : sid2 = sid
      · subst hne
        simp [sessionTotalOperations, mapLookup_update_self, hs]
      · simp [sessionTotalOperations, mapLookup_update_ne hne]
  | none =>
      rw [AddMentalModel_of_absent s sid m hs]
      by_cases hne : sid2 = sid
      · subst hne
        simp [sessionTotalOperations, mapLookup_update_self, freshSession, hs]
      · simp [sessionTotalOperations, mapLookup_update_ne hne]

theorem AddMentalModel_lastAccess_self (s : Storage) (sid : String) (m : MentalModelData) :
    sessionLastAccess (AddMentalModel s sid m) sid = some s.now := by
  cases hs : mapLookup sid s.sessions with
  | some session =>
      rw [AddMentalModel_of_found s sid m session hs]
      simp [sessionLastAccess, mapLookup_update_self]
  | none =>
      rw [AddMentalModel_of_absent s sid m hs]
      simp [sessionLastAccess, mapLookup_update_self]

/-! ## Invariants of the storage state machine -/

/-- Every recorded session's thought count is within the configured cap. -/
def CapInv (s : Storage) : Prop :=
  ∀ sid, (sessionThoughtCount s sid : Int) ≤ s.config.maxThoughtsPerSession

/-- Every recorded last-access timestamp is at most the current clock. -/
def ClockInv (s : Storage) : Prop :=
  ∀ sid session, mapLookup sid s.sessions = some session →
    session.lastAccessedAt ≤ s.now

theorem getSession_clockInv (s : Storage) (sid : String) (h : ClockInv s) :
    ClockInv ((getSession s sid).2) := by
  intro sid2 session2 hl
  rw [getSession_now]
  unfold getSession at hl
  cases hs : mapLookup sid s.sessions with
  | some session =>
      rw [hs] at hl
      exact h sid2 session2 hl
  | none =>
      rw [hs] at hl
      simp only at hl
      by_cases hne : sid2 = sid
      · subst hne
        rw [mapLookup_update_self] at hl
        cases hl
        simp [freshSession]
      · rw [mapLookup_update_ne hne] at hl
        exact h sid2 session2 hl

theorem getSession_lastAccess_mono (s : Storage) (sid sid2 : String) (la : Nat)
    (h : sessionLastAccess s sid2 = some la) :
    ∃ la', sessionLastAccess ((getSession s sid).2) sid2 = some la' ∧ la ≤ la' :=
  ⟨la, getSession_lastAccess_pres s sid sid2 la h, le_refl la⟩

theorem AddThought_clockInv (s : Storage) (sid : String) (t : ThoughtData)
    (h : ClockInv s) : ClockInv ((AddThought s sid t).1) := by
  rcases lt_or_ge ((sessionThoughtCount s sid : Int)) s.config.maxThoughtsPerSession with hc | hc
  · rw [AddThought_of_lt s sid t hc]
    intro sid2 session2 hl
    simp only at hl ⊢
    by_cases hne : sid2 = sid
    · subst hne
      rw [mapLookup_update_self] at hl
      cases hl
      simp
    · rw [mapLookup_update_ne hne] at hl
      have := getSession_clockInv s sid h sid2 session2 hl
      rw [getSession_now] at this
      omega
  · rw [AddThought_of_ge s sid t hc]
    exact getSession_clockInv s sid h

theorem AddThought_lastAccess_mono (s : Storage) (sid : String) (t : ThoughtData)
    (sid2 : String) (la : Nat) (hinv : ClockInv s)
    (h : sessionLastAccess s sid2 = some la) :
    ∃ la', sessionLastAccess ((AddThought s sid t).1) sid2 = some la' ∧ la ≤ la' := by
  rcases lt_or_ge ((sessionThoughtCount s sid : Int)) s.config.maxThoughtsPerSession with hc | hc
  · by_cases hne : sid2 = sid
    · subst hne
      refine ⟨s.now, AddThought_lastAccess_self_of_lt s sid2 t hc, ?_⟩
      simp only [sessionLastAccess, Option.map_eq_some'] at h
      obtain ⟨session, hl, hla⟩ := h
      have := hinv sid2 session hl
      omega
    · rw [AddThought_of_lt s sid t hc]
      refine ⟨la, ?_, le_refl la⟩
      simp only [sessionLastAccess]
      rw [mapLookup_update_ne hne]
      have := getSession_lastAccess_pres s sid sid2 la h
      simpa [sessionLastAccess] using this
  · rw [AddThought_of_ge s sid t hc]
    exact getSession_lastAccess_mono s sid sid2 la h

theorem AddMentalModel_clockInv (s : Storage) (sid : String) (m : MentalModelData)
    (h : ClockInv s) : ClockInv (AddMentalModel s sid m) := by
  intro sid2 session2 hl
  rw [AddMentalModel_now]
  cases hs : mapLookup sid s.sessions with
  | some session =>
      rw [AddMentalModel_of_found s sid m session hs] at hl
      by_cases hne : sid2 = sid
      · subst hne
        rw [mapLookup_update_self] at hl
        cases hl
        simp
      · rw [mapLookup_update_ne hne] at hl
        have := h sid2 session2 hl
        omega
  | none =>
      rw [AddMentalModel_of_absent s sid m hs] at hl
      by_cases hne : sid2 = sid
      · subst hne
        rw [mapLookup_update_self] at hl
        cases hl
        simp
      · rw [mapLookup_update_ne hne, mapLookup_update_ne hne] at hl
        have := h sid2 session2 hl
        omega

theorem AddMentalModel_lastAccess_mono (s : Storage) (sid : String) (m : MentalModelData)
    (sid2 : String) (la : Nat) (hinv : ClockInv s)
    (h : sessionLastAccess s sid2 = some la) :
    ∃ la', sessionLastAccess (AddMentalModel s sid m) sid2 = some la' ∧ la ≤ la' := by
  by_cases hne : sid2 = sid
  · subst hne
    refine ⟨s.now, AddMentalModel_lastAccess_self s sid2 m, ?_⟩
    simp only [sessionLastAccess, Option.map_eq_some'] at h
    obtain ⟨session, hl, hla⟩ := h
    have := hinv sid2 session hl
    omega
  · refine ⟨la, ?_, le_refl la⟩
    cases hs : mapLookup sid s.sessions with
    | some session =>
        rw [AddMentalModel_of_found s sid m session hs]
        simp only [sessionLastAccess]
        rw [mapLookup_update_ne hne]
        simpa [sessionLastAccess] using h
    | none =>
        rw [AddMentalModel_of_absent s sid m hs]
        simp only [sessionLastAccess]
        rw [mapLookup_update_ne hne, mapLookup_update_ne hne]
        simpa [sessionLastAccess] using h

/-! ## Step and run lemmas -/

theorem GetSessionStats_snd (s : Storage) (sid : String) :
    (GetSessionStats s sid).2 = (getSession s sid).2 := rfl

theorem stepOp_config (s : Storage) (op : Op) : (stepOp s op).config = s.config := by
  cases op with
  | addThought sid t => exact AddThought_config s sid t
  | addMentalModel sid m => exact AddMentalModel_config s sid m
  | getOrCreate sid => exact getSession_config s sid
  | stats sid => rw [stepOp, GetSessionStats_snd]; exact getSession_config s sid
  | exportSession sid => rfl

theorem stepOp_capInv (s : Storage) (op : Op)
    (_h0 : 0 ≤ s.config.maxThoughtsPerSession) (h : CapInv s) : CapInv (stepOp s op) := by
  cases op with
  | addThought sid t =>
      intro sid2
      rw [show (stepOp s (Op.addThought sid t)).config = s.config from stepOp_config s _]
      rcases lt_or_ge ((sessionThoughtCount s sid : Int)) s.config.maxThoughtsPerSession
        with hc | hc
      · by_cases hne : sid2 = sid
        · subst hne
          rw [show stepOp s (Op.addThought sid2 t) = (AddThought s sid2 t).1 from rfl,
            AddThought_count_self_of_lt s sid2 t hc]
          push_cast
          omega
        · rw [show stepOp s (Op.addThought sid t) = (AddThought s sid t).1 from rfl,
            AddThought_count_other s sid t sid2 hne]
          exact h sid2
      · rw [show stepOp s (Op.addThought sid t) = (AddThought s sid t).1 from rfl,
          AddThought_count_of_ge s sid t hc sid2]
        exact h sid2
  | addMentalModel sid m =>
      intro sid2
      rw [show (stepOp s (Op.addMentalModel sid m)).config = s.config from stepOp_config s _,
        show stepOp s (Op.addMentalModel sid m) = AddMentalModel s sid m from rfl,
        AddMentalModel_count s sid m sid2]
      exact h sid2
  | getOrCreate sid =>
      intro sid2
      rw [show (stepOp s (Op.getOrCreate sid)).config = s.config from stepOp_config s _,
        show stepOp s (Op.getOrCreate sid) = (getSession s sid).2 from rfl,
        getSession_count s sid sid2]
      exact h sid2
  | stats sid =>
      intro sid2
      rw [show (stepOp s (Op.stats sid)).config = s.config from stepOp_config s _,
        show stepOp s (Op.stats sid) = (getSession s sid).2 from
          by rw [stepOp, GetSessionStats_snd],
        getSession_count s sid sid2]
      exact h sid2
  | exportSession sid => exact h

theorem stepOp_clockInv (s : Storage) (op : Op) (h : ClockInv s) :
    ClockInv (stepOp s op) := by
  cases op with
  | addThought sid t => exact AddThought_clockInv s sid t h
  | addMentalModel sid m => exact AddMentalModel_clockInv s sid m h
  | getOrCreate sid => exact getSession_clockInv s sid h
  | stats sid =>
      rw [show stepOp s (Op.stats sid) = (getSession s sid).2 from
        by rw [stepOp, GetSessionStats_snd]]
      exact getSession_clockInv s sid h
  | exportSession sid => exact h

theorem stepOp_lastAccess_mono (s : Storage) (op : Op) (sid2 : String) (la : Nat)
    (hinv : ClockInv s) (h : sessionLastAccess s sid2 = some la) :
    ∃ la', sessionLastAccess (stepOp s op) sid2 = some la' ∧ la ≤ la' := by
  cases op with
  | addThought sid t => exact AddThought_lastAccess_mono s sid t sid2 la hinv h
  | addMentalModel sid m => exact AddMentalModel_lastAccess_mono s sid m sid2 la hinv h
  | getOrCreate sid => exact getSession_lastAccess_mono s sid sid2 la h
  | stats sid =>
      rw [show stepOp s (Op.stats sid) = (getSession s sid).2 from
        by rw [stepOp, GetSessionStats_snd]]
      exact getSession_lastAccess_mono s sid sid2 la h
  | exportSession sid => exact ⟨la, h, le_refl la⟩

theorem runOps_config (s : Storage) (ops : List Op) : (runOps s ops).config = s.config := by
  induction ops generalizing s with
  | nil => rfl
  | cons op rest ih => rw [runOps, ih, stepOp_config]

theorem runOps_capInv (s : Storage) (ops : List Op)
    (h0 : 0 ≤ s.config.maxThoughtsPerSession) (h : CapInv s) : CapInv (runOps s ops) := by
  induction ops generalizing s with
  | nil => exact h
  | cons op rest ih =>
      rw [runOps]
      exact ih (stepOp s op)
        (by rw [stepOp_config]; exact h0)
        (stepOp_capInv s op h0 h)

theorem runOps_clockInv (s : Storage) (ops : List Op) (h : ClockInv s) :
    ClockInv (runOps s ops) := by
  induction ops generalizing s with
  | nil => exact h
  | cons op rest ih =>
      rw [runOps]
      exact ih (stepOp s op) (stepOp_clockInv s op h)

theorem runOps_lastAccess_mono (s : Storage) (ops : List Op) (sid2 : String) (la : Nat)
    (hinv : ClockInv s) (h : sessionLastAccess s sid2 = some la) :
    ∃ la', sessionLastAccess (runOps s ops) sid2 = some la' ∧ la ≤ la' := by
  induction ops generalizing s la with
  | nil => exact ⟨la, h, le_refl la⟩
  | cons op rest ih =>
      rw [runOps]
      obtain ⟨la1, h1, hle1⟩ := stepOp_lastAccess_mono s op sid2 la hinv h
      obtain ⟨la2, h2, hle2⟩ := ih (stepOp s op) la1 (stepOp_clockInv s op hinv) h1
      exact ⟨la2, h2, le_trans hle1 hle2⟩

theorem capInv_new (cfg : Config) (h0 : 0 ≤ cfg.maxThoughtsPerSession) :
    CapInv (Storage.new cfg) := by
  intro sid
  simp [Storage.new, sessionThoughtCount, mapLookup]
  exact h0

theorem clockInv_new (cfg : Config) : ClockInv (Storage.new cfg) := by
  intro sid session hl
  simp [Storage.new, mapLookup] at hl

/-! ## `GetSessionStats` projection lemmas and iterated appends -/

theorem GetSessionStats_thoughtCount (s : Storage) (sid : String) :
    ((GetSessionStats s sid).1).thoughtCount = s.thoughts.length := by
  show (GetThoughts ((getSession s sid).2) sid).length = s.thoughts.length
  simp [GetThoughts, getSession_thoughts]

theorem GetSessionStats_remaining (s : Storage) (sid : String) :
    ((GetSessionStats s sid).1).remainingThoughts =
      s.config.maxThoughtsPerSession - (s.thoughts.length : Int) := by
  show ((getSession s sid).2).config.maxThoughtsPerSession -
      ((GetThoughts ((getSession s sid).2) sid).length : Int) = _
  simp [GetThoughts, getSession_thoughts, getSession_config]

theorem addThoughts_ok (sid : String) (ts : List ThoughtData) : ∀ (s : Storage),
    (sessionThoughtCount s sid : Int) + ts.length ≤ s.config.maxThoughtsPerSession →
    ∃ st', addThoughts s sid ts = (st', none) ∧
      sessionThoughtCount st' sid = sessionThoughtCount s sid + ts.length ∧
      st'.config = s.config := by
  induction ts with
  | nil =>
      intro s _
      exact ⟨s, rfl, by simp [addThoughts], rfl⟩
  | cons t rest ih =>
      intro s h
      have hlt : (sessionThoughtCount s sid : Int) < s.config.maxThoughtsPerSession := by
        simp only [List.length_cons] at h
        push_cast at h
        omega
      have hnone : (AddThought s sid t).2 = none := (AddThought_snd_none_iff s sid t).mpr hlt
      obtain ⟨st', h1, h2, h3⟩ := ih ((AddThought s sid t).1) (by
        rw [AddThought_count_self_of_lt s sid t hlt, AddThought_config]
        simp only [List.length_cons] at h
        push_cast
        push_cast at h
        omega)
      have hsplit : AddThought s sid t = ((AddThought s sid t).1, none) :=
        Prod.ext_iff.mpr ⟨rfl, hnone⟩
      refine ⟨st', ?_, ?_, ?_⟩
      · rw [addThoughts, hsplit]
        exact h1
      · rw [h2, AddThought_count_self_of_lt s sid t hlt]
        simp only [List.length_cons]
        omega
      · rw [h3, AddThought_config]

/-! ## Concrete sample data -/

/-- A concrete thought payload used in witnesses and counterexamples. -/
def sampleThought (i : String) (n tt : Int) : ThoughtData :=
  { id := i, thought := "t", thoughtNumber := n, totalThoughts := tt,
    isRevision := false, revisesThought := none, branchFromThought := none,
    branchID := "", needsMoreThoughts := false, nextThoughtNeeded := true,
    createdAt := 0 }

/-- A fresh store with the default cap of 100. -/
def store0 : Storage := Storage.new { maxThoughtsPerSession := 100 }

/-- `store0` after one successful thought append for session `"s1"`. -/
def storeS1 : Storage := (AddThought store0 "s1" (sampleThought "a" 1 3)).1

/-- `storeS1` after one successful thought append for session `"s2"`. -/
def storeS1S2 : Storage := (AddThought storeS1 "s2" (sampleThought "b" 1 3)).1

/-! ## Claim theorems -/

/-- Claim C1: for every session and configured cap, the session's thought
count after N successful `AddThought` calls equals N, and once N equals
the cap a further append fails with the thought-limit error; on failure
no thought is stored and no session counter changes. -/
theorem claim_c1_thought_cap (cfg : Config) (sid : String) (ts : List ThoughtData)
    (h : (ts.length : Int) ≤ cfg.maxThoughtsPerSession) :
    ∃ st', addThoughts (Storage.new cfg) sid ts = (st', none) ∧
      sessionThoughtCount st' sid = ts.length ∧
      ((ts.length : Int) = cfg.maxThoughtsPerSession →
        ∀ t, (AddThought st' sid t).2 =
            some ("thought limit reached for session " ++ sid) ∧
          ((AddThought st' sid t).1).thoughts = st'.thoughts ∧
          ∀ sid2, sessionThoughtCount ((AddThought st' sid t).1) sid2 =
            sessionThoughtCount st' sid2) := by
  have hz : sessionThoughtCount (Storage.new cfg) sid = 0 := by
    simp [Storage.new, sessionThoughtCount, mapLookup]
  obtain ⟨st', h1, h2, h3⟩ := addThoughts_ok sid ts (Storage.new cfg) (by
    rw [hz]
    simpa using h)
  rw [hz] at h2
  refine ⟨st', h1, by simpa using h2, ?_⟩
  intro hful t
  have hge : (sessionThoughtCount st' sid : Int) ≥ st'.config.maxThoughtsPerSession := by
    rw [h3, h2]
    simp only [Storage.new]
    push_cast
    omega
  refine ⟨?_, AddThought_thoughts_of_ge st' sid t hge,
    fun sid2 => AddThought_count_of_ge st' sid t hge sid2⟩
  rw [AddThought_of_ge st' sid t hge]

/-- Witness for C1 at cap 2 with two thoughts. -/
theorem claim_c1_thought_cap_witness :
    ∃ st', addThoughts (Storage.new { maxThoughtsPerSession := 2 }) "s1"
        [sampleThought "a" 1 3, sampleThought "b" 2 3] = (st', none) ∧
      sessionThoughtCount st' "s1" =
        ([sampleThought "a" 1 3, sampleThought "b" 2 3] : List ThoughtData).length ∧
      (((([sampleThought "a" 1 3, sampleThought "b" 2 3] : List ThoughtData).length : Int)) =
          ({ maxThoughtsPerSession := 2 } : Config).maxThoughtsPerSession →
        ∀ t, (AddThought st' "s1" t).2 =
            some ("thought limit reached for session " ++ "s1") ∧
          ((AddThought st' "s1" t).1).thoughts = st'.thoughts ∧
          ∀ sid2, sessionThoughtCount ((AddThought st' "s1" t).1) sid2 =
            sessionThoughtCount st' sid2) :=
  claim_c1_thought_cap { maxThoughtsPerSession := 2 } "s1"
    [sampleThought "a" 1 3, sampleThought "b" 2 3] (by decide)

/-- Claim C2 is false on the code: after one successful append for
session `"s1"` and one for session `"s2"` (distinct supplied ids `"a"`
and `"b"`), `GetThoughts` returns BOTH thoughts for either session id —
it does not filter by owning session (and `ThoughtData` does not even
record an owning session), contradicting "returns exactly the thoughts
whose owning session identifier is that session". -/
theorem claim_c2_unfiltered_listing :
    (AddThought store0 "s1" (sampleThought "a" 1 3)).2 = none ∧
    (AddThought storeS1 "s2" (sampleThought "b" 1 3)).2 = none ∧
    (GetThoughts storeS1S2 "s1").map ThoughtData.id = ["a", "b"] ∧
    (GetThoughts storeS1S2 "s2").map ThoughtData.id = ["a", "b"] := by decide

/-- Claim C3: from a fresh store under any non-negative configured cap,
along any operation sequence, every session's stored thought count stays
within the cap, and a session's recorded last-access timestamp never
decreases between any two reachable points of its life. -/
theorem claim_c3_invariants (cfg : Config) (h0 : 0 ≤ cfg.maxThoughtsPerSession)
    (ops more : List Op) (sid : String) :
    (sessionThoughtCount (runOps (Storage.new cfg) ops) sid : Int) ≤
      cfg.maxThoughtsPerSession ∧
    (∀ la la', sessionLastAccess (runOps (Storage.new cfg) ops) sid = some la →
      sessionLastAccess (runOps (runOps (Storage.new cfg) ops) more) sid = some la' →
      la ≤ la') := by
  constructor
  · have hcap := runOps_capInv (Storage.new cfg) ops h0 (capInv_new cfg h0)
    have h1 := hcap sid
    rwa [runOps_config] at h1
  · intro la la' h1 h2
    have hclock := runOps_clockInv (Storage.new cfg) ops (clockInv_new cfg)
    obtain ⟨la2, h3, h4⟩ :=
      runOps_lastAccess_mono (runOps (Storage.new cfg) ops) more sid la hclock h1
    rw [h2] at h3
    injection h3 with h5
    omega

/-- Witness for C3: cap 100, one append for `"s1"`, then a stats read. -/
theorem claim_c3_invariants_witness :
    (sessionThoughtCount (runOps (Storage.new { maxThoughtsPerSession := 100 })
        [Op.addThought "s1" (sampleThought "a" 1 3)]) "s1" : Int) ≤
      ({ maxThoughtsPerSession := 100 } : Config).maxThoughtsPerSession ∧
    (∀ la la', sessionLastAccess (runOps (Storage.new { maxThoughtsPerSession := 100 })
        [Op.addThought "s1" (sampleThought "a" 1 3)]) "s1" = some la →
      sessionLastAccess (runOps (runOps (Storage.new { maxThoughtsPerSession := 100 })
        [Op.addThought "s1" (sampleThought "a" 1 3)]) [Op.stats "s1"]) "s1" = some la' →
      la ≤ la') :=
  claim_c3_invariants { maxThoughtsPerSession := 100 } (by decide)
    [Op.addThought "s1" (sampleThought "a" 1 3)] [Op.stats "s1"] "s1"

/-- Claim C4 is false on the code: `GetSessionStats` derives every count
from the unfiltered global thought/model lists.  After a single thought
appended for `"s1"`, the stats of the fresh session `"s2"` report
`thoughtCount = 1`, `remainingThoughts = 99 = cap - 1` and a `toolsUsed`
containing `"sequential-thinking"`, although session `"s2"`'s own
recorded thought count is 0 (the claim requires 0, 100 and an empty
tool set). -/
theorem claim_c4_stats_global_counts :
    ((GetSessionStats storeS1 "s2").1).thoughtCount = 1 ∧
    ((GetSessionStats storeS1 "s2").1).remainingThoughts = 99 ∧
    ((GetSessionStats storeS1 "s2").1).toolsUsed = ["sequential-thinking"] ∧
    ((GetSessionStats storeS1 "s2").1).totalOperations = 1 ∧
    sessionThoughtCount storeS1 "s2" = 0 := by decide

/-- Claim C5 is false on the code: `ExportSession` snapshots the
unfiltered global lists.  With one thought already stored for `"s1"`,
exporting session `"s2"` immediately after its single successful
submission (K = 1, M = 0) yields TWO thought records instead of
exactly one. -/
theorem claim_c5_export_global :
    (AddThought storeS1 "s2" (sampleThought "b" 1 3)).2 = none ∧
    (ExportSession storeS1S2 "s2").dataThoughts.map ThoughtData.id = ["a", "b"] ∧
    (ExportSession storeS1S2 "s2").dataMentalModels = [] := by decide

/-- Claim C6 as stated is false: a successful `AddThought` does NOT
increment the session's total-operation counter — after one successful
append the session's `TotalOperations` field is still 0. -/
theorem claim_c6_counterexample :
    (AddThought store0 "s1" (sampleThought "a" 1 3)).2 = none ∧
    sessionTotalOperations storeS1 "s1" = 0 := by decide

/-- Claim C6 (amended): every successful thought append assigns an
identifier when the caller supplied none, stamps the creation timestamp,
inserts the thought, increments the session's thought count by one and
updates the session's last-access timestamp — but leaves the session's
total-operation counter unchanged. -/
theorem claim_c6_success_effects (s : Storage) (sid : String) (t : ThoughtData)
    (h : (sessionThoughtCount s sid : Int) < s.config.maxThoughtsPerSession) :
    (AddThought s sid t).2 = none ∧
    mapLookup (storedThoughtID s t) ((AddThought s sid t).1).thoughts =
      some { t with id := storedThoughtID s t, createdAt := s.now } ∧
    sessionThoughtCount ((AddThought s sid t).1) sid = sessionThoughtCount s sid + 1 ∧
    sessionLastAccess ((AddThought s sid t).1) sid = some s.now ∧
    sessionTotalOperations ((AddThought s sid t).1) sid = sessionTotalOperations s sid :=
  ⟨(AddThought_snd_none_iff s sid t).mpr h,
   AddThought_stored_of_lt s sid t h,
   AddThought_count_self_of_lt s sid t h,
   AddThought_lastAccess_self_of_lt s sid t h,
   AddThought_totalOperations s sid t sid⟩

/-- Witness for the amended C6, with a caller-empty id so the generated
identifier path is exercised. -/
theorem claim_c6_success_effects_witness :
    (AddThought store0 "s1" (sampleThought "" 1 3)).2 = none ∧
    mapLookup (storedThoughtID store0 (sampleThought "" 1 3))
        ((AddThought store0 "s1" (sampleThought "" 1 3)).1).thoughts =
      some { sampleThought "" 1 3 with
        id := storedThoughtID store0 (sampleThought "" 1 3), createdAt := store0.now } ∧
    sessionThoughtCount ((AddThought store0 "s1" (sampleThought "" 1 3)).1) "s1" =
      sessionThoughtCount store0 "s1" + 1 ∧
    sessionLastAccess ((AddThought store0 "s1" (sampleThought "" 1 3)).1) "s1" =
      some store0.now ∧
    sessionTotalOperations ((AddThought store0 "s1" (sampleThought "" 1 3)).1) "s1" =
      sessionTotalOperations store0 "s1" :=
  claim_c6_success_effects store0 "s1" (sampleThought "" 1 3) (by decide)

/-- Claim C7 as stated is false on the export half: `ExportSession`
never calls `getSession`, so exporting a never-seen session id does NOT
create the session — the subsequent strict lookup still fails. -/
theorem claim_c7_counterexample :
    GetSession (runOps store0 [Op.exportSession "sx"]) "sx" =
      Except.error "session sx not found" := by decide

/-- Claim C7 (amended): `GetSessionStats` and `ExportSession` are total
(they model Go functions whose error result is always nil); querying
stats for any session id leaves the session present, so a subsequent
strict lookup succeeds; the export path reads without touching the
session registry, so strict lookups are unchanged by it. -/
theorem claim_c7_stats_autocreate (s : Storage) (sid : String) :
    (∃ session, GetSession ((GetSessionStats s sid).2) sid = Except.ok session) ∧
    (∀ sid2, GetSession (stepOp s (Op.exportSession sid)) sid2 = GetSession s sid2) := by
  constructor
  · refine ⟨(getSession s sid).1, ?_⟩
    rw [GetSessionStats_snd]
    unfold GetSession
    rw [getSession_lookup_self]
  · intro sid2
    rfl

/-- Claim C8: applying `first_principles` with no explicit steps answers
with the catalog's four canonical steps and category `analytical`. -/
theorem claim_c8_first_principles :
    ((handleMentalModel store0 "s1" "first_principles" "X" []).2).map
        (fun r => (r.stepsUsed, r.modelInfoCategory)) =
      Except.ok (["Identify the problem clearly", "Break it down into basic components",
        "Question assumptions", "Build up from the basics"], "analytical") := by decide

/-- Claim C9: below the cap, `AddThought` accepts and stores a thought
for EVERY choice of `thoughtNumber` and `totalThoughts` — including
`thoughtNumber > totalThoughts` and non-sequential numbers — performing
no sequence validation. -/
theorem claim_c9_no_sequence_validation (s : Storage) (sid : String) (t : ThoughtData)
    (tn tt : Int)
    (h : (sessionThoughtCount s sid : Int) < s.config.maxThoughtsPerSession) :
    (AddThought s sid { t with thoughtNumber := tn, totalThoughts := tt }).2 = none ∧
    ((AddThought s sid { t with thoughtNumber := tn, totalThoughts := tt }).1).thoughts =
      mapUpdate (storedThoughtID s { t with thoughtNumber := tn, totalThoughts := tt })
        { t with
          thoughtNumber := tn
          totalThoughts := tt
          id := storedThoughtID s { t with thoughtNumber := tn, totalThoughts := tt }
          createdAt := s.now }
        s.thoughts :=
  ⟨(AddThought_snd_none_iff s sid _).mpr h,
   AddThought_thoughts_of_lt s sid _ h⟩

/-- Witness for C9 with `thoughtNumber = 7 > totalThoughts = 2`. -/
theorem claim_c9_no_sequence_validation_witness :
    (AddThought store0 "s1"
        { sampleThought "c" 1 1 with thoughtNumber := 7, totalThoughts := 2 }).2 = none ∧
    ((AddThought store0 "s1"
        { sampleThought "c" 1 1 with thoughtNumber := 7, totalThoughts := 2 }).1).thoughts =
      mapUpdate (storedThoughtID store0
          { sampleThought "c" 1 1 with thoughtNumber := 7, totalThoughts := 2 })
        { sampleThought "c" 1 1 with
          thoughtNumber := 7
          totalThoughts := 2
          id := storedThoughtID store0
            { sampleThought "c" 1 1 with thoughtNumber := 7, totalThoughts := 2 }
          createdAt := store0.now }
        store0.thoughts :=
  claim_c9_no_sequence_validation store0 "s1" (sampleThought "c" 1 1) 7 2 (by decide)

/-- Claim C10: on every successful `sequential_thinking` invocation the
returned `remaining_thoughts` equals the literal 100 minus the reported
thought count — independent of the configured cap — so whenever the cap
differs from 100 it disagrees with the `RemainingThoughts` that
`GetSessionStats` computes (`cap - thoughtCount`). -/
theorem claim_c10_hardcoded_remaining (st : Storage) (sid th : String)
    (tn tt : Int) (b : Bool) (resp : SeqThinkingResponse)
    (h : (handleSequentialThinking st sid th tn tt b).2 = Except.ok resp)
    (hcap : st.config.maxThoughtsPerSession ≠ 100) :
    resp.remainingThoughts = 100 - (resp.totalThoughts : Int) ∧
    resp.remainingThoughts ≠
      ((GetSessionStats ((handleSequentialThinking st sid th tn tt b).1) sid).1).remainingThoughts := by
  cases hA : (AddThought st sid (seqThoughtData st th tn tt b)).2 with
  | some e =>
      rw [show (handleSequentialThinking st sid th tn tt b).2 = Except.error e from by
        simp only [handleSequentialThinking, hA]] at h
      exact absurd h (by simp)
  | none =>
      have h2 : (handleSequentialThinking st sid th tn tt b).2 =
          Except.ok
            { thoughtID := (seqThoughtData st th tn tt b).id
              totalThoughts :=
                ((GetSessionStats ((AddThought st sid (seqThoughtData st th tn tt b)).1)
                  sid).1).thoughtCount
              remainingThoughts := 100 -
                (((GetSessionStats ((AddThought st sid (seqThoughtData st th tn tt b)).1)
                  sid).1).thoughtCount : Int) } := by
        simp only [handleSequentialThinking, hA]
      rw [h2] at h
      injection h with h3
      subst h3
      have h4 : (handleSequentialThinking st sid th tn tt b).1 =
          (GetSessionStats ((AddThought st sid (seqThoughtData st th tn tt b)).1) sid).2 := by
        simp only [handleSequentialThinking, hA]
      constructor
      · rfl
      · rw [h4, GetSessionStats_snd, GetSessionStats_remaining, getSession_config,
          getSession_thoughts, AddThought_config, GetSessionStats_thoughtCount]
        simp only []
        omega

/-- Witness for C10 at cap 5: the handler reports 99 remaining thoughts
while the stats report 4. -/
theorem claim_c10_hardcoded_remaining_witness :
    ({ thoughtID := "0-1", totalThoughts := 1, remainingThoughts := 99 } :
        SeqThinkingResponse).remainingThoughts =
      100 - (({ thoughtID := "0-1", totalThoughts := 1, remainingThoughts := 99 } :
        SeqThinkingResponse).totalThoughts : Int) ∧
    ({ thoughtID := "0-1", totalThoughts := 1, remainingThoughts := 99 } :
        SeqThinkingResponse).remainingThoughts ≠
      ((GetSessionStats ((handleSequentialThinking
          (Storage.new { maxThoughtsPerSession := 5 }) "s1" "x" 1 3 true).1)
        "s1").1).remainingThoughts :=
  claim_c10_hardcoded_remaining (Storage.new { maxThoughtsPerSession := 5 }) "s1" "x"
    1 3 true { thoughtID := "0-1", totalThoughts := 1, remainingThoughts := 99 }
    (by decide) (by decide)

end GoThink
